import Mathlib

/-!
Verification of the My-Pharma authentication subsystem.

The Django source (`backend/authentication/` and `backend/my_pharma/settings.py`)
is shallowly embedded: ORM-backed user rows become a `User` record threaded
through the functions that mutate them, the Redis cache becomes explicit store
records, and each service method or view handler becomes a pure function from
the old state to the response and the new state.  Time is a `Nat` of minutes.

Configuration is the `Settings` record: one field per Django settings
attribute the embedded code reads, holding `none` when `my_pharma/settings.py`
does not define that exact name (it defines only `AUTH_`-prefixed variants of
several of them), in which case the read raises `AttributeError`.  Fallible
code returns `Except Exn`, and view embeddings map an exception that escapes
the handler to the 500 `INTERNAL_ERROR` envelope that
`custom_exception_handler` (`exceptions.py` lines 189-245) produces for
anything that is not a DRF `APIException`.  `djangoSettings` is the record
transcribed from `settings.py`; theorems about the program as shipped
evaluate at it.  Python strings are Lean `String`s, except `normalize_phone`,
which manipulates individual characters and is embedded over `List Char`.
-/

namespace MyPharma

/-- Python exceptions that the embedded code can raise and that no handler in
the source catches before DRF's boundary: attribute access on a missing
Django settings name, and DRF's assertion on reading `validated_data` before
`is_valid()`. -/
inductive Exn
  | attributeError (name : String)
  | assertionError
  deriving Repr, DecidableEq

/-- Django settings attributes read by the embedded authentication code, one
field per attribute name, `some v` when `my_pharma/settings.py` defines that
exact name and `none` when it does not (reading it then raises
`AttributeError`). -/
structure Settings where
  OTP_LENGTH : Option Nat
  OTP_EXPIRY_MINUTES : Option Nat
  OTP_MAX_RESEND_ATTEMPTS : Option Nat
  ACCOUNT_LOCKOUT_THRESHOLD : Option Nat
  ACCOUNT_LOCKOUT_DURATION_MINUTES : Option Nat
  FRONTEND_URL : Option String
  SMS_GATEWAY_URL : Option String
  deriving Repr, DecidableEq

/-- The settings record of `my_pharma/settings.py` as shipped: none of the
names above is defined there — it defines `AUTH_OTP_LENGTH`,
`AUTH_OTP_EXPIRY_MINUTES`, `AUTH_OTP_MAX_RESEND_PER_HOUR`,
`AUTH_MAX_FAILED_LOGIN_ATTEMPTS` and `AUTH_ACCOUNT_LOCKOUT_MINUTES` instead
(lines 178-184), and no `FRONTEND_URL` or `SMS_GATEWAY_URL` at all — so every
field is `none`. -/
def djangoSettings : Settings :=
  { OTP_LENGTH := none
    OTP_EXPIRY_MINUTES := none
    OTP_MAX_RESEND_ATTEMPTS := none
    ACCOUNT_LOCKOUT_THRESHOLD := none
    ACCOUNT_LOCKOUT_DURATION_MINUTES := none
    FRONTEND_URL := none
    SMS_GATEWAY_URL := none }

/-- Payload stored under the OTP cache key by `OTPService.store_otp`
(`services.py` lines 77-84): the code itself plus the phone, purpose and
creation time. -/
structure OtpData where
  otp : String
  phone : String
  purpose : String
  createdAt : Nat
  deriving Repr, DecidableEq

/-- The slice of the Redis cache used by `OTPService` (`services.py`):
`otp:{phone}:{purpose}` keys holding `OtpData`, the `otp_attempts:{phone}`
resend counters, and the boolean `otp_resend:{phone}` cooldown flags.
An absent key is `none` / `0` / `false` respectively; TTLs are not modelled
beyond key presence. -/
structure OtpCache where
  data : String → String → Option OtpData
  attempts : String → Nat
  resendFlag : String → Bool

namespace OTPService

/-- Embedding of `OTPService.store_otp` (`services.py` lines 61-91): the very
first statement reads `settings.OTP_EXPIRY_MINUTES` (line 74), which
`settings.py` does not define, so before either `cache.set` the call raises
`AttributeError`; with the attribute present it writes the OTP payload under
the `(phone, purpose)` key and sets the one-hour resend cooldown flag for the
phone.  The resend counter is not touched on any path. -/
def store_otp (s : Settings) (c : OtpCache) (phone otp purpose : String) (now : Nat) :
    Except Exn OtpCache :=
  match s.OTP_EXPIRY_MINUTES with
  | none => .error (.attributeError "OTP_EXPIRY_MINUTES")
  | some _ =>
    .ok { c with
      data := fun p pu =>
        if p = phone ∧ pu = purpose then some ⟨otp, phone, purpose, now⟩ else c.data p pu,
      resendFlag := fun p => if p = phone then true else c.resendFlag p }

/-- Embedding of `OTPService.verify_otp` (`services.py` lines 113-139):
no stored payload fails with "OTP has expired or not found"; a code mismatch
fails with "Invalid OTP"; a match succeeds and deletes the key. -/
def verify_otp (c : OtpCache) (phone otp purpose : String) : (Bool × String) × OtpCache :=
  match c.data phone purpose with
  | none => ((false, "OTP has expired or not found"), c)
  | some d =>
    if d.otp ≠ otp then
      ((false, "Invalid OTP"), c)
    else
      ((true, "OTP verified successfully"),
        { c with data := fun p pu => if p = phone ∧ pu = purpose then none else c.data p pu })

/-- Embedding of `OTPService.can_resend_otp` (`services.py` lines 142-160):
resending is allowed exactly when the cooldown flag is absent.  The remaining
TTL reported alongside is not modelled. -/
def can_resend_otp (c : OtpCache) (phone : String) : Bool :=
  !(c.resendFlag phone)

/-- Embedding of `OTPService.check_max_resend_attempts` (`services.py` lines
163-182): compares the resend counter with `settings.OTP_MAX_RESEND_ATTEMPTS`
(undefined in `settings.py`, so the read raises).  Note that
`OTPSendView.post` never calls this function. -/
def check_max_resend_attempts (s : Settings) (c : OtpCache) (phone : String) :
    Except Exn (Bool × Nat) :=
  match s.OTP_MAX_RESEND_ATTEMPTS with
  | none => .error (.attributeError "OTP_MAX_RESEND_ATTEMPTS")
  | some maxAttempts =>
    if c.attempts phone ≥ maxAttempts then .ok (false, 0)
    else .ok (true, maxAttempts - c.attempts phone)

/-- Embedding of `OTPService.increment_resend_attempts` (`services.py` lines
185-202).  Note that `OTPSendView.post` never calls this function. -/
def increment_resend_attempts (c : OtpCache) (phone : String) : OtpCache × Nat :=
  ({ c with attempts := fun p => if p = phone then c.attempts phone + 1 else c.attempts p },
    c.attempts phone + 1)

end OTPService

/-- HTTP response skeleton: status code plus the machine-readable `code` field
of the JSON envelope ("OK" for the success responses, which carry none). -/
structure HttpResponse where
  status : Nat
  code : String
  deriving Repr, DecidableEq

/-- Embedding of `OTPSendView.post` (`views.py` lines 73-126) after serializer
validation: rejects with 429 `OTP_COOLDOWN` when the resend cooldown flag is
set; otherwise it reaches `OTPService.generate_otp(settings.OTP_LENGTH)`
(line 105), whose argument read raises on the shipped settings — uncaught, so
`custom_exception_handler` answers 500 with the cache untouched.  Were
`OTP_LENGTH` defined, `store_otp` runs (and can itself raise before writing),
then line 114 reads `settings.SMS_GATEWAY_URL` — a raise there comes after
the cache writes — and only past all three reads does the view respond 200.
The counter-based `check_max_resend_attempts` is never consulted. -/
def otp_send_view (s : Settings) (c : OtpCache) (phone purpose otp : String) (now : Nat) :
    HttpResponse × OtpCache :=
  if !(OTPService.can_resend_otp c phone) then
    (⟨429, "OTP_COOLDOWN"⟩, c)
  else
    match s.OTP_LENGTH with
    | none => (⟨500, "INTERNAL_ERROR"⟩, c)
    | some _ =>
      match OTPService.store_otp s c phone otp purpose now with
      | .error _ => (⟨500, "INTERNAL_ERROR"⟩, c)
      | .ok c2 =>
        match s.SMS_GATEWAY_URL with
        | none => (⟨500, "INTERNAL_ERROR"⟩, c2)
        | some _ => (⟨200, "OK"⟩, c2)

/-- Embedding of `OTPVerifyView.post` (`views.py` lines 138-177) after
serializer validation: any `verify_otp` failure becomes a 400 `OTP_INVALID`
response, success becomes 200. -/
def otp_verify_view (c : OtpCache) (phone otp purpose : String) :
    HttpResponse × OtpCache :=
  match OTPService.verify_otp c phone otp purpose with
  | ((true, _), c2) => (⟨200, "OK"⟩, c2)
  | ((false, _), c2) => (⟨400, "OTP_INVALID"⟩, c2)

/-- User roles, `UserRole` in `models.py` lines 18-24. -/
inductive UserRole
  | SUPER_ADMIN
  | PHARMACY_ADMIN
  | DOCTOR
  | REGISTERED_USER
  | GUEST_USER
  deriving Repr, DecidableEq

/-- Account statuses, `UserStatus` in `models.py` lines 30-36. -/
inductive UserStatus
  | ACTIVE
  | INACTIVE
  | LOCKED
  | PENDING_VERIFICATION
  | SUSPENDED
  deriving Repr, DecidableEq

/-- The `ROLE_PERMISSIONS` table of `models.py` lines 83-122, transcribed
verbatim. -/
def ROLE_PERMISSIONS : UserRole → List String
  | .SUPER_ADMIN =>
    ["user.view", "user.create", "user.edit", "user.delete",
     "pharmacy.view", "pharmacy.manage",
     "product.view", "product.manage",
     "prescription.view", "prescription.create", "prescription.approve",
     "order.view", "order.manage",
     "payment.view", "payment.process",
     "report.view", "report.generate",
     "system.config", "audit.view"]
  | .PHARMACY_ADMIN =>
    ["user.view", "user.create", "user.edit",
     "pharmacy.view", "pharmacy.manage",
     "product.view", "product.manage",
     "prescription.view", "prescription.approve",
     "order.view", "order.manage",
     "payment.view", "payment.process",
     "report.view", "report.generate"]
  | .DOCTOR =>
    ["product.view",
     "prescription.view", "prescription.create",
     "order.view",
     "report.view"]
  | .REGISTERED_USER =>
    ["product.view",
     "prescription.view",
     "order.view", "order.manage"]
  | .GUEST_USER =>
    ["product.view"]

/-- The fields of the `User` model (`models.py` lines 215-331) that the
authentication and authorization logic reads or writes.  `password` is `some
pw` for a usable password (password verification is modelled as comparison
with the stored value, standing in for hash checking) and `none` for an
unusable one.  `lockedUntil` is a minute timestamp. -/
structure User where
  isActive : Bool
  isSuperuser : Bool
  role : UserRole
  status : UserStatus
  permissions : List String
  failedLoginAttempts : Nat
  lockedUntil : Option Nat
  password : Option String
  deriving Repr, DecidableEq

namespace User

/-- A freshly saved user of role `r` with the model-level field defaults:
active, not a Django superuser, not locked, counter zero, and — via
`User.save` (`models.py` lines 356-360) — permissions populated from
`ROLE_PERMISSIONS`. -/
def defaultOfRole (r : UserRole) (password : Option String) : User :=
  { isActive := true
    isSuperuser := false
    role := r
    status := UserStatus.ACTIVE
    permissions := ROLE_PERMISSIONS r
    failedLoginAttempts := 0
    lockedUntil := none
    password := password }

/-- Embedding of `User.has_permission` (`models.py` lines 369-382): Django
superusers and `SUPER_ADMIN` bypass the check; everyone else needs the
permission string in their stored `permissions` list. -/
def has_permission (u : User) (permission : String) : Bool :=
  if u.isSuperuser || u.role == UserRole.SUPER_ADMIN then true
  else u.permissions.contains permission

/-- Embedding of `User.is_account_locked` (`models.py` lines 420-424):
locked exactly when `locked_until` is set and still in the future. -/
def is_account_locked (u : User) (now : Nat) : Bool :=
  match u.lockedUntil with
  | some t => now < t
  | none => false

/-- Embedding of `User.lock_account` (`models.py` lines 426-435): sets the
`LOCKED` status and a lock expiry `duration_minutes` from now. -/
def lock_account (u : User) (now durationMinutes : Nat) : User :=
  { u with status := UserStatus.LOCKED, lockedUntil := some (now + durationMinutes) }

/-- Embedding of `User.unlock_account` (`models.py` lines 437-442).  Nothing
in the login flow calls it. -/
def unlock_account (u : User) : User :=
  { u with status := UserStatus.ACTIVE, lockedUntil := none, failedLoginAttempts := 0 }

/-- Embedding of `User.increment_failed_login` (`models.py` lines 444-457):
bumps the counter and locks the account once it reaches the threshold. -/
def increment_failed_login (u : User) (now maxAttempts lockDuration : Nat) : User :=
  let u2 := { u with failedLoginAttempts := u.failedLoginAttempts + 1 }
  if u2.failedLoginAttempts ≥ maxAttempts then lock_account u2 now lockDuration else u2

/-- Embedding of `User.reset_failed_login` (`models.py` lines 459-462):
zeroes the counter and saves only that field. -/
def reset_failed_login (u : User) : User :=
  { u with failedLoginAttempts := 0 }

/-- Embedding of `User.check_password`: comparison against the stored
credential, standing in for the framework hash check. -/
def check_password (u : User) (password : String) : Bool :=
  u.password == some password

/-- Embedding of `User.has_usable_password`. -/
def has_usable_password (u : User) : Bool :=
  u.password.isSome

/-- Embedding of the `User.can_login` property (`models.py` lines 494-501):
active, not within a live lock window, and status `ACTIVE` or
`PENDING_VERIFICATION`.  It only reads the user; nothing is cleared. -/
def can_login (u : User) (now : Nat) : Bool :=
  u.isActive && !(is_account_locked u now) &&
    (u.status == UserStatus.ACTIVE || u.status == UserStatus.PENDING_VERIFICATION)

end User

/-- Embedding of `unlock_expired_accounts` (`tasks.py` lines 322-349), the
Celery task that reactivates a `LOCKED` user whose lock expiry is strictly in
the past.  It is defined but absent from the beat schedule in
`my_pharma/celery.py`, so nothing ever runs it automatically. -/
def unlock_expired_accounts (u : User) (now : Nat) : User :=
  if u.status == UserStatus.LOCKED &&
      (match u.lockedUntil with
        | some t => decide (t < now)
        | none => false) then
    { u with status := UserStatus.ACTIVE, lockedUntil := none, failedLoginAttempts := 0 }
  else u

namespace AuthenticationService

/-- Embedding of `AuthenticationService.authenticate_email` (`services.py`
lines 394-430) for an existing user row: unusable password and `can_login`
are checked first.  On a wrong password the call
`user.increment_failed_login(settings.ACCOUNT_LOCKOUT_THRESHOLD,
settings.ACCOUNT_LOCKOUT_DURATION_MINUTES)` first evaluates its two
arguments, left to right; `settings.py` defines neither name, so the attempt
raises `AttributeError` before `increment_failed_login` runs (this is the
only call site of `increment_failed_login` in the repository) and the row is
not modified.  With both attributes present the counter is incremented and
the account locked at the threshold.  A correct password runs
`reset_failed_login`.  An `.ok` result pairs the Python `(success, message)`
tuple with the updated user row; an `.error` escapes to the view, where
`custom_exception_handler` answers 500. -/
def authenticate_email (s : Settings) (u : User) (password : String) (now : Nat) :
    Except Exn ((Bool × String) × User) :=
  if !(User.has_usable_password u) then
    .ok ((false, "This account uses phone authentication. Please login with phone."), u)
  else if !(User.can_login u now) then
    .ok ((false, "Account is locked or inactive"), u)
  else if !(User.check_password u password) then
    match s.ACCOUNT_LOCKOUT_THRESHOLD with
    | none => .error (.attributeError "ACCOUNT_LOCKOUT_THRESHOLD")
    | some threshold =>
      match s.ACCOUNT_LOCKOUT_DURATION_MINUTES with
      | none => .error (.attributeError "ACCOUNT_LOCKOUT_DURATION_MINUTES")
      | some durationMinutes =>
        .ok ((false, "Invalid email or password"),
          User.increment_failed_login u now threshold durationMinutes)
  else
    .ok ((true, "Authentication successful"), User.reset_failed_login u)

end AuthenticationService

/-- A decoded JWT as the views see it: the serialized string, the `jti`
identifier claim, the owning user's id, and the outcome of the library's
signature and expiry checks (abstracted to booleans, as the claims assume
tokens whose signature and expiry are otherwise valid). -/
structure Token where
  raw : String
  jti : String
  userId : String
  sigValid : Bool
  expired : Bool
  deriving Repr, DecidableEq

/-- The three revocation stores the token code touches:
`cacheBlacklist` — the jti-keyed Redis blacklist consulted by
`token_blacklist_exists` in `jwt_auth.py`;
`dbTokens` — rows of the custom `BlacklistedToken` table (`models.py` lines
684-716), keyed by the full serialized token string, written by
`LogoutView.post`;
`jwtBlacklist` — the jti-keyed blacklist of the installed
`rest_framework_simplejwt.token_blacklist` app, written by
`RefreshToken.blacklist()` and by rotation (settings `ROTATE_REFRESH_TOKENS`
and `BLACKLIST_AFTER_ROTATION` are both `True`, `settings.py` lines 132-141). -/
structure TokenState where
  cacheBlacklist : String → Bool
  dbTokens : List String
  jwtBlacklist : String → Bool

/-- Modelled from the spec: `jwt_auth.py` imports `token_blacklist_exists`
from `.utils`, but no definition of it appears anywhere under the sources.
The spec describes the blacklist it consults as "set of revoked token
identifiers, consulted on every authenticated request", kept in Redis and
keyed by jti ("Validates JWT then checks Redis blacklist by jti"), so it is
modelled as membership of the jti in the cache-backed blacklist. -/
def token_blacklist_exists (st : TokenState) (jti : String) : Bool :=
  st.cacheBlacklist jti

/-- Outcome of the authentication middleware for one request. -/
inductive AuthOutcome
  | anonymous
  | authenticated (userId : String)
  | rejected (message : String)
  deriving Repr, DecidableEq

/-- Embedding of `JWTAuthWithBlacklist.authenticate` (`jwt_auth.py` lines
11-22): the base `JWTAuthentication` validates signature and expiry, then the
jti is looked up via `token_blacklist_exists` and the request is rejected with
"Token has been revoked." on a hit. -/
def jwt_auth_with_blacklist (st : TokenState) (bearer : Option Token) : AuthOutcome :=
  match bearer with
  | none => .anonymous
  | some tok =>
    if !tok.sigValid || tok.expired then .rejected "Given token not valid for any token type"
    else if token_blacklist_exists st tok.jti then .rejected "Token has been revoked."
    else .authenticated tok.userId

/-- Embedding of `LogoutView.post` (`views.py` lines 618-674) for an
authenticated request carrying `accessTok` and optionally presenting a refresh
token.  The handler's second statement reads `serializer.validated_data`
without ever calling `is_valid()` (lines 629-630); DRF's `validated_data`
property then raises `AssertionError` unconditionally, which is not an
`APIException`, so `custom_exception_handler` answers 500 `INTERNAL_ERROR`.
Every statement below the read — `token.blacklist()`, both
`BlacklistedToken.objects.create` calls, the session deactivation, the 200
response — is unreachable, so all three revocation stores are returned
unchanged.  (Had the handler completed, it would still only have written the
jti-keyed simplejwt blacklist for the refresh token and full-token-string
rows of the custom table, never the jti-keyed cache blacklist the
authentication middleware consults.) -/
def logout_view (st : TokenState) (_accessTok : Token) (_refresh : Option Token) :
    HttpResponse × TokenState :=
  (⟨500, "INTERNAL_ERROR"⟩, st)

/-- Result of the token refresh endpoint: an error envelope or a freshly
minted pair. -/
inductive RefreshResult
  | failure (resp : HttpResponse)
  | success (newAccess newRefresh : Token)
  deriving Repr, DecidableEq

/-- Embedding of the custom `TokenRefreshView.post` (`views.py` lines
575-612).  A missing `refresh` field fails DRF field validation and yields
401 `TOKEN_INVALID`.  Otherwise simplejwt's `TokenRefreshSerializer.validate`
runs inside `serializer.is_valid()`: a bad signature, expiry, or a jti already
in the simplejwt blacklist raises `TokenError`, which the view does not catch
and which is not a DRF `APIException`, so `custom_exception_handler`
(`exceptions.py` lines 189-245) turns it into a 500 `INTERNAL_ERROR`
response.  A valid token is rotated — its jti enters the simplejwt blacklist
and a new pair (`mintAccess`, `mintRefresh`, standing for the freshly minted
tokens) lands in `validated_data` — after which the view consults the custom
`BlacklistedToken` table by full token string and answers 401 `TOKEN_REVOKED`
on a hit, else 200 with the new pair. -/
def token_refresh_view (st : TokenState) (field : Option Token)
    (mintAccess mintRefresh : Token) : RefreshResult × TokenState :=
  match field with
  | none => (.failure ⟨401, "TOKEN_INVALID"⟩, st)
  | some tok =>
    if !tok.sigValid || tok.expired || st.jwtBlacklist tok.jti then
      (.failure ⟨500, "INTERNAL_ERROR"⟩, st)
    else
      let st1 := { st with jwtBlacklist := fun j => j == tok.jti || st.jwtBlacklist j }
      if tok.raw ∈ st1.dbTokens then (.failure ⟨401, "TOKEN_REVOKED"⟩, st1)
      else (.success mintAccess mintRefresh, st1)

/-- Embedding of `EmailService.send_password_reset_email` (`services.py`
lines 681-729): it creates a `PasswordResetToken` row (line 695) and then
builds the reset URL from `settings.FRONTEND_URL` (line 702) — an attribute
`settings.py` does not define, so on the shipped settings the call raises
`AttributeError` after the row write and no mail is sent; with the attribute
present it sends the mail to the user's address.  The result carries the
created-token flag and the recipient list. -/
def send_password_reset_email (s : Settings) (email : String) :
    Except Exn (Bool × List String) :=
  match s.FRONTEND_URL with
  | none => .error (.attributeError "FRONTEND_URL")
  | some _ => .ok (true, [email])

/-- Embedding of `PasswordResetRequestView.post` (`views.py` lines 680-719).
`validEmail` stands for the serializer's `EmailField` format check (a function
of the submitted string only); `db` is the list of email addresses with a user
row.  An invalid submission is a 400 `VALIDATION_ERROR`.  Otherwise, when the
user exists, `send_password_reset_email` runs inside a `try` whose only
`except` clause is `User.DoesNotExist`, so the `AttributeError` it raises on
the shipped settings escapes and `custom_exception_handler` answers 500;
when the user does not exist the lookup's `DoesNotExist` is swallowed and the
fixed 200 envelope is returned.  The second component is the recipient list
of any mail actually dispatched. -/
def password_reset_request_view (s : Settings) (validEmail : String → Bool)
    (db : List String) (email : String) : HttpResponse × List String :=
  if !(validEmail email) then (⟨400, "VALIDATION_ERROR"⟩, [])
  else if email ∈ db then
    match send_password_reset_email s email with
    | .error _ => (⟨500, "INTERNAL_ERROR"⟩, [])
    | .ok (_, sent) => (⟨200, "OK"⟩, sent)
  else (⟨200, "OK"⟩, [])

/-- Characters removed by the `re.sub` in `normalize_phone` (`utils.py` line
114): the ASCII whitespace class of the regex `\s` plus dash and the two
parentheses.  Python's `\s` additionally matches Unicode whitespace; the
idempotence argument below depends only on the stripped set not containing
`+` or `8` and on the output of stripping containing no strippable character,
both of which hold for the larger Unicode set as well. -/
def strippedChars : List Char :=
  [' ', '\t', '\n', '\r', '\x0b', '\x0c', '-', '(', ')']

/-- The `re.sub` step of `normalize_phone`: drop every stripped character. -/
def stripPhone (p : List Char) : List Char :=
  p.filter (fun c => !(strippedChars.contains c))

/-- Embedding of `normalize_phone` (`utils.py` lines 103-126) over the
characters of the input string: strip whitespace, dashes and parentheses,
then prepend a country code when the leading `+` is missing — `+88` for a
10-digit number starting with `0` or an 11-digit one starting with `01`
(Bangladesh default), a bare `+` otherwise. -/
def normalize_phone (p : List Char) : List Char :=
  if (stripPhone p).head? = some '+' then stripPhone p
  else if (stripPhone p).length = 10 ∧ (stripPhone p).head? = some '0' then
    '+' :: '8' :: '8' :: stripPhone p
  else if (stripPhone p).length = 11 ∧ (stripPhone p).take 2 = ['0', '1'] then
    '+' :: '8' :: '8' :: stripPhone p
  else '+' :: stripPhone p

/-- A sequence of verification attempts against the same `(phone, purpose)`
key, folding `OTPService.verify_otp` over the guessed codes and keeping the
resulting cache. -/
def run_guesses (c : OtpCache) (phone purpose : String) (guesses : List String) : OtpCache :=
  guesses.foldl (fun st g => (OTPService.verify_otp st phone g purpose).2) c

/-! Helper lemmas. -/

/-- A verification attempt with a non-matching code fails with "Invalid OTP"
and returns the cache unchanged. -/
theorem verify_otp_wrong (c : OtpCache) (phone purpose : String) (d : OtpData)
    (g : String) (h : c.data phone purpose = some d) (hne : g ≠ d.otp) :
    OTPService.verify_otp c phone g purpose = ((false, "Invalid OTP"), c) := by
  unfold OTPService.verify_otp
  rw [h]
  simp only [ne_eq, ite_not]
  rw [if_neg (fun hh => hne hh.symm)]

/-- Any sequence of non-matching verification attempts leaves the cache
unchanged. -/
theorem run_guesses_fixed (phone purpose : String) (d : OtpData) :
    ∀ (guesses : List String) (c : OtpCache), c.data phone purpose = some d →
      (∀ g ∈ guesses, g ≠ d.otp) → run_guesses c phone purpose guesses = c := by
  intro guesses
  induction guesses with
  | nil => intro c _ _; rfl
  | cons g gs ih =>
    intro c h hg
    have hstep := verify_otp_wrong c phone purpose d g h (hg g (List.mem_cons_self g gs))
    unfold run_guesses
    rw [List.foldl_cons, congrArg Prod.snd hstep]
    exact ih c h (fun x hx => hg x (List.mem_cons_of_mem g hx))

/-- Every character produced by `normalize_phone` survives the stripping
pass: the output consists of stripped input characters, possibly preceded by
a country-code prefix that contains no stripped character. -/
theorem stripPhone_cons_keep (c : Char) (q : List Char)
    (h : (!(strippedChars.contains c)) = true) :
    stripPhone (c :: q) = c :: stripPhone q := by
  simp only [stripPhone, List.filter_cons, h, if_pos]

theorem stripPhone_idem (q : List Char) : stripPhone (stripPhone q) = stripPhone q :=
  List.filter_eq_self.mpr (fun _ ha => (List.mem_filter.mp ha).2)

theorem stripPhone_normalize (p : List Char) :
    stripPhone (normalize_phone p) = normalize_phone p := by
  have hplus : (!(strippedChars.contains '+')) = true := by decide
  have h8 : (!(strippedChars.contains '8')) = true := by decide
  unfold normalize_phone
  split
  · exact stripPhone_idem p
  · split
    · rw [stripPhone_cons_keep '+' _ hplus, stripPhone_cons_keep '8' _ h8,
        stripPhone_cons_keep '8' _ h8, stripPhone_idem p]
    · split
      · rw [stripPhone_cons_keep '+' _ hplus, stripPhone_cons_keep '8' _ h8,
          stripPhone_cons_keep '8' _ h8, stripPhone_idem p]
      · rw [stripPhone_cons_keep '+' _ hplus, stripPhone_idem p]

/-- The output of `normalize_phone` always starts with a plus sign. -/
theorem normalize_phone_head (p : List Char) :
    (normalize_phone p).head? = some '+' := by
  unfold normalize_phone
  split
  · assumption
  · split
    · rfl
    · split
      · rfl
      · rfl

/-! Claim theorems. -/

/-- Claim C10: phone normalization is idempotent — for every input string,
applying `normalize_phone` twice yields the same result as applying it
once. -/
theorem C10_normalize_phone_idempotent (p : List Char) :
    normalize_phone (normalize_phone p) = normalize_phone p := by
  have hs := stripPhone_normalize p
  have hh := normalize_phone_head p
  obtain ⟨q, hq⟩ : ∃ q, normalize_phone p = q := ⟨_, rfl⟩
  rw [hq] at hs hh ⊢
  unfold normalize_phone
  rw [hs, hh]
  simp

/-- Claim C7: for every role and capability, a user of that role whose stored
permissions are the role's defaults (and who does not carry the Django
superuser flag, which `has_permission` also honours) is allowed exactly the
capabilities the `ROLE_PERMISSIONS` table lists for the role, except that
`SUPER_ADMIN` — like any user given that role — is allowed every capability
regardless of the table contents. -/
theorem C7_rbac_matches_table (r : UserRole) (cap : String) (pw : Option String) :
    (User.has_permission (User.defaultOfRole r pw) cap = true ↔
      r = UserRole.SUPER_ADMIN ∨ cap ∈ ROLE_PERMISSIONS r) ∧
    (∀ u : User, User.has_permission { u with role := UserRole.SUPER_ADMIN } cap = true) := by
  constructor
  · cases r <;> simp [User.has_permission, User.defaultOfRole]
  · intro u
    simp [User.has_permission]

/-- Claim C8 (code-bug exhibit): on the shipped settings the password-reset
request endpoint reveals account existence.  For the same valid submitted
email, the run against a database containing a user with that email answers
500 `INTERNAL_ERROR` — `send_password_reset_email` raises `AttributeError` at
the undefined `settings.FRONTEND_URL` and the only `except` clause catches
`User.DoesNotExist` alone — while the run against a database without that
user answers 200, so the two responses differ exactly on the secret.  The
claim (and the handler's own "Don't reveal if email exists" comment) require
the responses to be identical. -/
theorem C8_reset_response_reveals_existence :
    (password_reset_request_view djangoSettings (fun _ => true)
      ["user@example.com"] "user@example.com").1 = ⟨500, "INTERNAL_ERROR"⟩ ∧
    (password_reset_request_view djangoSettings (fun _ => true)
      [] "user@example.com").1 = ⟨200, "OK"⟩ ∧
    (password_reset_request_view djangoSettings (fun _ => true)
      ["user@example.com"] "user@example.com").1 ≠
      (password_reset_request_view djangoSettings (fun _ => true)
        [] "user@example.com").1 := by
  decide

/-- Claim C1 (code-bug exhibit): a user holding a valid access token (and a
valid refresh token) attempts to log out.  The handler raises
`AssertionError` on its premature `validated_data` read, so the response is
500 `INTERNAL_ERROR` and nothing is blacklisted — every revocation store
comes back unchanged — and the authentication middleware accepts the very
same access token afterwards (it consults the jti-keyed cache blacklist via
`token_blacklist_exists`, which no code in the repository ever writes; the
statements logout would have run write only the simplejwt blacklist and the
custom full-token-string table).  The claim, the spec and `jwt_auth.py`'s
own docstring demand that the post-logout request be rejected. -/
theorem C1_logout_crashes_and_access_token_stays_usable :
    (logout_view ⟨fun _ => false, [], fun _ => false⟩
        ⟨"tok-access", "jti-access", "user-1", true, false⟩
        (some ⟨"tok-refresh", "jti-refresh", "user-1", true, false⟩)).1 =
      ⟨500, "INTERNAL_ERROR"⟩ ∧
    (logout_view ⟨fun _ => false, [], fun _ => false⟩
        ⟨"tok-access", "jti-access", "user-1", true, false⟩
        (some ⟨"tok-refresh", "jti-refresh", "user-1", true, false⟩)).2 =
      ⟨fun _ => false, [], fun _ => false⟩ ∧
    jwt_auth_with_blacklist
      ((logout_view ⟨fun _ => false, [], fun _ => false⟩
        ⟨"tok-access", "jti-access", "user-1", true, false⟩
        (some ⟨"tok-refresh", "jti-refresh", "user-1", true, false⟩)).2)
      (some ⟨"tok-access", "jti-access", "user-1", true, false⟩) =
      .authenticated "user-1" :=
  ⟨rfl, rfl, rfl⟩

/-- Claim C2 (code-bug exhibit): on the shipped settings the lockout never
engages.  A wrong-password attempt against a fresh active user raises
`AttributeError` at the undefined `settings.ACCOUNT_LOCKOUT_THRESHOLD`
(surfaced as 500 by the exception handler) before `increment_failed_login` —
whose only call site in the repository this is — can run, so the stored row
is never modified: after any number of wrong-password attempts the row is
still the original one, and the next attempt with the correct password
succeeds immediately with counter 0 instead of failing with AccountLocked.
Neither half of the claimed scenario occurs.  (Even with both settings
defined, the elapsed lock would not be cleared lazily on the attempt:
`can_login` only reads the row, and the clearing exists solely in the
`unlock_expired_accounts` Celery task, which the beat schedule never
runs.) -/
theorem C2_lockout_never_engages :
    AuthenticationService.authenticate_email djangoSettings
      ⟨true, false, .REGISTERED_USER, .ACTIVE, ROLE_PERMISSIONS .REGISTERED_USER,
        0, none, some "correct-horse"⟩
      "wrong-guess" 0 =
      .error (.attributeError "ACCOUNT_LOCKOUT_THRESHOLD") ∧
    AuthenticationService.authenticate_email djangoSettings
      ⟨true, false, .REGISTERED_USER, .ACTIVE, ROLE_PERMISSIONS .REGISTERED_USER,
        0, none, some "correct-horse"⟩
      "correct-horse" 0 =
      .ok ((true, "Authentication successful"),
        ⟨true, false, .REGISTERED_USER, .ACTIVE, ROLE_PERMISSIONS .REGISTERED_USER,
          0, none, some "correct-horse"⟩) :=
  ⟨rfl, rfl⟩

/-- Claim C5 (code-bug exhibit): on the shipped settings the OTP endpoint
never issues a code.  From an empty cache (resend counter 0, below the
configured maximum of 3, cooldown flag clear) the first request answers 500
`INTERNAL_ERROR` — `OTPService.generate_otp(settings.OTP_LENGTH)` raises on
the undefined attribute right after the cooldown check — and the cache comes
back unchanged: nothing stored, no flag set, the counter neither read nor
incremented.  `store_otp` itself equally raises at the undefined
`settings.OTP_EXPIRY_MINUTES` before its first cache write.  The claim's
"requests while the counter is below the maximum succeed, generate and store
a code, and increment the counter" is false of the program, which rejects
every request.  (The checks that are coded gate on the one-hour boolean
cooldown flag, not on the counter: `check_max_resend_attempts` and
`increment_resend_attempts` have no callers.) -/
theorem C5_send_crashes_below_maximum :
    (otp_send_view djangoSettings ⟨fun _ _ => none, fun _ => 0, fun _ => false⟩
      "+8801712345678" "REGISTRATION" "123456" 0).1 = ⟨500, "INTERNAL_ERROR"⟩ ∧
    (otp_send_view djangoSettings ⟨fun _ _ => none, fun _ => 0, fun _ => false⟩
      "+8801712345678" "REGISTRATION" "123456" 0).2 =
      ⟨fun _ _ => none, fun _ => 0, fun _ => false⟩ ∧
    (⟨fun _ _ => none, fun _ => 0, fun _ => false⟩ : OtpCache).attempts
      "+8801712345678" < 3 ∧
    OTPService.store_otp djangoSettings ⟨fun _ _ => none, fun _ => 0, fun _ => false⟩
      "+8801712345678" "123456" "REGISTRATION" 0 =
      .error (.attributeError "OTP_EXPIRY_MINUTES") :=
  ⟨rfl, rfl, by decide, rfl⟩

/-- Claim C3 (counterexample): a user who is active with status `ACTIVE`,
counter 3 and a stale lock expiry at minute 10 logs in successfully with the
correct password at minute 20 (the success path reads no settings, so it runs
to completion on the shipped settings); the counter is reset to 0 as claimed,
but the persistent lock expiry is left at minute 10 — it is not cleared,
contradicting "clears the lock state, both the persistent lock fields ... and
the cached lockout flag" (no cached lockout flag exists in the login flow at
all). -/
theorem C3_counterexample :
    AuthenticationService.authenticate_email djangoSettings
      ⟨true, false, .REGISTERED_USER, .ACTIVE, ROLE_PERMISSIONS .REGISTERED_USER,
        3, some 10, some "pw-123456"⟩
      "pw-123456" 20 =
      .ok ((true, "Authentication successful"),
        ⟨true, false, .REGISTERED_USER, .ACTIVE, ROLE_PERMISSIONS .REGISTERED_USER,
          0, some 10, some "pw-123456"⟩) ∧
    ¬ (⟨true, false, .REGISTERED_USER, .ACTIVE, ROLE_PERMISSIONS .REGISTERED_USER,
        0, some 10, some "pw-123456"⟩ : User).lockedUntil = none :=
  ⟨rfl, by decide⟩

/-- Claim C3 (amended): a successful password login resets the failed-login
counter to zero and changes nothing else — whenever `authenticate_email`
returns an `.ok` result whose success flag is set, the updated row equals the
old one with only `failed_login_attempts` zeroed; in particular the lock
expiry and status fields are left as they were (success is only reachable
when no live lock exists), and no cache-backed lockout flag is involved. -/
theorem C3_success_resets_only_counter (s : Settings) (u : User) (password : String)
    (now : Nat) (res : (Bool × String) × User)
    (h : AuthenticationService.authenticate_email s u password now = .ok res)
    (hs : res.1.1 = true) :
    res.2 = { u with failedLoginAttempts := 0 } := by
  unfold AuthenticationService.authenticate_email at h
  split at h
  · cases h
    simp at hs
  · split at h
    · cases h
      simp at hs
    · split at h
      · split at h
        · simp at h
        · split at h
          · simp at h
          · cases h
            simp at hs
      · cases h
        simp [User.reset_failed_login]

/-- Claim C3 (amended, witness): the amended statement at the counterexample
user — the first conjunct records that the chosen result is the genuine
output of `authenticate_email` there. -/
theorem C3_success_resets_only_counter_witness :
    AuthenticationService.authenticate_email djangoSettings
      ⟨true, false, .REGISTERED_USER, .ACTIVE, ROLE_PERMISSIONS .REGISTERED_USER,
        3, some 10, some "pw-123456"⟩
      "pw-123456" 20 =
      .ok ((true, "Authentication successful"),
        ⟨true, false, .REGISTERED_USER, .ACTIVE, ROLE_PERMISSIONS .REGISTERED_USER,
          0, some 10, some "pw-123456"⟩) ∧
    (((true, "Authentication successful"),
      (⟨true, false, .REGISTERED_USER, .ACTIVE, ROLE_PERMISSIONS .REGISTERED_USER,
        0, some 10, some "pw-123456"⟩ : User)) : (Bool × String) × User).2 =
      { (⟨true, false, .REGISTERED_USER, .ACTIVE, ROLE_PERMISSIONS .REGISTERED_USER,
          3, some 10, some "pw-123456"⟩ : User) with failedLoginAttempts := 0 } :=
  ⟨rfl,
    C3_success_resets_only_counter djangoSettings
      ⟨true, false, .REGISTERED_USER, .ACTIVE, ROLE_PERMISSIONS .REGISTERED_USER,
        3, some 10, some "pw-123456"⟩
      "pw-123456" 20
      ((true, "Authentication successful"),
        ⟨true, false, .REGISTERED_USER, .ACTIVE, ROLE_PERMISSIONS .REGISTERED_USER,
          0, some 10, some "pw-123456"⟩)
      rfl rfl⟩

/-- Claim C4: an OTP is single-use.  For every cache, identifier and purpose
with a stored code, verifying that code succeeds and deletes the stored
entry, so an immediate second verification with the same code fails ("OTP has
expired or not found" at service level), which `OTPVerifyView` surfaces as
the 400 `OTP_INVALID` error. -/
theorem C4_otp_single_use (c : OtpCache) (phone purpose : String) (d : OtpData)
    (h : c.data phone purpose = some d) :
    (OTPService.verify_otp c phone d.otp purpose).1.1 = true ∧
    ((OTPService.verify_otp c phone d.otp purpose).2).data phone purpose = none ∧
    (OTPService.verify_otp ((OTPService.verify_otp c phone d.otp purpose).2)
      phone d.otp purpose).1 = (false, "OTP has expired or not found") ∧
    (otp_verify_view ((OTPService.verify_otp c phone d.otp purpose).2)
      phone d.otp purpose).1 = ⟨400, "OTP_INVALID"⟩ := by
  have h1 : OTPService.verify_otp c phone d.otp purpose =
      ((true, "OTP verified successfully"),
        { c with data := fun p pu =>
            if p = phone ∧ pu = purpose then none else c.data p pu }) := by
    unfold OTPService.verify_otp
    rw [h]
    simp
  have h2 : ((OTPService.verify_otp c phone d.otp purpose).2).data phone purpose = none := by
    rw [h1]
    simp
  refine ⟨by rw [h1], h2, ?_, ?_⟩
  · rw [h1]
    unfold OTPService.verify_otp
    simp
  · rw [h1]
    unfold otp_verify_view OTPService.verify_otp
    simp

/-- Claim C4 (witness): the single-use property at a one-entry cache. -/
theorem C4_otp_single_use_witness :
    (OTPService.verify_otp
      ⟨fun p pu => if p = "+8801712345678" ∧ pu = "LOGIN" then
          some ⟨"123456", "+8801712345678", "LOGIN", 0⟩ else none,
        fun _ => 0, fun _ => false⟩
      "+8801712345678" "123456" "LOGIN").1.1 = true ∧
    ((OTPService.verify_otp
      ⟨fun p pu => if p = "+8801712345678" ∧ pu = "LOGIN" then
          some ⟨"123456", "+8801712345678", "LOGIN", 0⟩ else none,
        fun _ => 0, fun _ => false⟩
      "+8801712345678" "123456" "LOGIN").2).data "+8801712345678" "LOGIN" = none ∧
    (OTPService.verify_otp
      ((OTPService.verify_otp
        ⟨fun p pu => if p = "+8801712345678" ∧ pu = "LOGIN" then
            some ⟨"123456", "+8801712345678", "LOGIN", 0⟩ else none,
          fun _ => 0, fun _ => false⟩
        "+8801712345678" "123456" "LOGIN").2)
      "+8801712345678" "123456" "LOGIN").1 = (false, "OTP has expired or not found") ∧
    (otp_verify_view
      ((OTPService.verify_otp
        ⟨fun p pu => if p = "+8801712345678" ∧ pu = "LOGIN" then
            some ⟨"123456", "+8801712345678", "LOGIN", 0⟩ else none,
          fun _ => 0, fun _ => false⟩
        "+8801712345678" "123456" "LOGIN").2)
      "+8801712345678" "123456" "LOGIN").1 = ⟨400, "OTP_INVALID"⟩ :=
  C4_otp_single_use
    ⟨fun p pu => if p = "+8801712345678" ∧ pu = "LOGIN" then
        some ⟨"123456", "+8801712345678", "LOGIN", 0⟩ else none,
      fun _ => 0, fun _ => false⟩
    "+8801712345678" "LOGIN" ⟨"123456", "+8801712345678", "LOGIN", 0⟩ (by decide)

/-- Claim C9: a verification attempt with a non-matching code fails and
returns the cache unchanged — the stored entry is not deleted and no attempt
counter is incremented — and after any number of such wrong guesses the
stored code still verifies successfully; nothing bounds the number of wrong
guesses. -/
theorem C9_wrong_guesses_leave_store (c : OtpCache) (phone purpose : String)
    (d : OtpData) (g : String) (guesses : List String)
    (h : c.data phone purpose = some d) (hg : g ≠ d.otp)
    (hgs : ∀ x ∈ guesses, x ≠ d.otp) :
    OTPService.verify_otp c phone g purpose = ((false, "Invalid OTP"), c) ∧
    run_guesses c phone purpose guesses = c ∧
    (OTPService.verify_otp (run_guesses c phone purpose guesses)
      phone d.otp purpose).1.1 = true := by
  have hrun := run_guesses_fixed phone purpose d guesses c h hgs
  refine ⟨verify_otp_wrong c phone purpose d g h hg, hrun, ?_⟩
  rw [hrun]
  unfold OTPService.verify_otp
  rw [h]
  simp

/-- Claim C9 (witness): five wrong guesses against a one-entry cache leave it
intact and the right code still verifies. -/
theorem C9_wrong_guesses_witness :
    OTPService.verify_otp
      ⟨fun p pu => if p = "+8801712345678" ∧ pu = "LOGIN" then
          some ⟨"123456", "+8801712345678", "LOGIN", 0⟩ else none,
        fun _ => 0, fun _ => false⟩
      "+8801712345678" "000000" "LOGIN" =
      ((false, "Invalid OTP"),
        ⟨fun p pu => if p = "+8801712345678" ∧ pu = "LOGIN" then
            some ⟨"123456", "+8801712345678", "LOGIN", 0⟩ else none,
          fun _ => 0, fun _ => false⟩) ∧
    run_guesses
      ⟨fun p pu => if p = "+8801712345678" ∧ pu = "LOGIN" then
          some ⟨"123456", "+8801712345678", "LOGIN", 0⟩ else none,
        fun _ => 0, fun _ => false⟩
      "+8801712345678" "LOGIN" ["000000", "111111", "222222", "333333", "444444"] =
      ⟨fun p pu => if p = "+8801712345678" ∧ pu = "LOGIN" then
          some ⟨"123456", "+8801712345678", "LOGIN", 0⟩ else none,
        fun _ => 0, fun _ => false⟩ ∧
    (OTPService.verify_otp
      (run_guesses
        ⟨fun p pu => if p = "+8801712345678" ∧ pu = "LOGIN" then
            some ⟨"123456", "+8801712345678", "LOGIN", 0⟩ else none,
          fun _ => 0, fun _ => false⟩
        "+8801712345678" "LOGIN" ["000000", "111111", "222222", "333333", "444444"])
      "+8801712345678" "123456" "LOGIN").1.1 = true :=
  C9_wrong_guesses_leave_store
    ⟨fun p pu => if p = "+8801712345678" ∧ pu = "LOGIN" then
        some ⟨"123456", "+8801712345678", "LOGIN", 0⟩ else none,
      fun _ => 0, fun _ => false⟩
    "+8801712345678" "LOGIN" ⟨"123456", "+8801712345678", "LOGIN", 0⟩
    "000000" ["000000", "111111", "222222", "333333", "444444"]
    (by decide) (by decide) (by decide)

/-- Claim C6 (counterexample): from empty revocation stores, refreshing a
valid refresh token succeeds and rotates it (its jti enters the simplejwt
blacklist); presenting the same old refresh token again is indeed rejected —
but the response is the 500 `INTERNAL_ERROR` produced when the serializer's
`TokenError` escapes `serializer.is_valid()` into `custom_exception_handler`,
not the 401 `TOKEN_REVOKED` the claim names (that branch reads the custom
`BlacklistedToken` table, which rotation never writes). -/
theorem C6_counterexample :
    (token_refresh_view ⟨fun _ => false, [], fun _ => false⟩
      (some ⟨"tok-r0", "jti-r0", "user-1", true, false⟩)
      ⟨"tok-a1", "jti-a1", "user-1", true, false⟩
      ⟨"tok-r1", "jti-r1", "user-1", true, false⟩).1 =
      .success ⟨"tok-a1", "jti-a1", "user-1", true, false⟩
        ⟨"tok-r1", "jti-r1", "user-1", true, false⟩ ∧
    (token_refresh_view
      ((token_refresh_view ⟨fun _ => false, [], fun _ => false⟩
        (some ⟨"tok-r0", "jti-r0", "user-1", true, false⟩)
        ⟨"tok-a1", "jti-a1", "user-1", true, false⟩
        ⟨"tok-r1", "jti-r1", "user-1", true, false⟩).2)
      (some ⟨"tok-r0", "jti-r0", "user-1", true, false⟩)
      ⟨"tok-a2", "jti-a2", "user-1", true, false⟩
      ⟨"tok-r2", "jti-r2", "user-1", true, false⟩).1 =
      .failure ⟨500, "INTERNAL_ERROR"⟩ ∧
    (token_refresh_view
      ((token_refresh_view ⟨fun _ => false, [], fun _ => false⟩
        (some ⟨"tok-r0", "jti-r0", "user-1", true, false⟩)
        ⟨"tok-a1", "jti-a1", "user-1", true, false⟩
        ⟨"tok-r1", "jti-r1", "user-1", true, false⟩).2)
      (some ⟨"tok-r0", "jti-r0", "user-1", true, false⟩)
      ⟨"tok-a2", "jti-a2", "user-1", true, false⟩
      ⟨"tok-r2", "jti-r2", "user-1", true, false⟩).1 ≠
      .failure ⟨401, "TOKEN_REVOKED"⟩ := by
  decide

/-- Claim C6 (amended): with rotation enabled, refreshing a valid,
not-yet-revoked refresh token succeeds with a newly minted pair and
blacklists the old token's jti, so presenting the old token again is
rejected — though as a 500 `INTERNAL_ERROR` (the uncaught `TokenError`
path), not as 401 `TOKEN_REVOKED` — while the new pair validates
successfully: the new refresh token refreshes and the new access token
authenticates. -/
theorem C6_rotation_rejects_reuse (st : TokenState) (r mintA mintR a2 r2 : Token)
    (hsig : r.sigValid = true) (hexp : r.expired = false)
    (hjb : st.jwtBlacklist r.jti = false) (hdb : r.raw ∉ st.dbTokens)
    (hmsig : mintR.sigValid = true) (hmexp : mintR.expired = false)
    (hmjti : (mintR.jti == r.jti) = false) (hmjb : st.jwtBlacklist mintR.jti = false)
    (hmdb : mintR.raw ∉ st.dbTokens)
    (hasig : mintA.sigValid = true) (haexp : mintA.expired = false)
    (hacache : st.cacheBlacklist mintA.jti = false) :
    (token_refresh_view st (some r) mintA mintR).1 = .success mintA mintR ∧
    (token_refresh_view ((token_refresh_view st (some r) mintA mintR).2)
      (some r) a2 r2).1 = .failure ⟨500, "INTERNAL_ERROR"⟩ ∧
    (token_refresh_view ((token_refresh_view st (some r) mintA mintR).2)
      (some mintR) a2 r2).1 = .success a2 r2 ∧
    jwt_auth_with_blacklist ((token_refresh_view st (some r) mintA mintR).2)
      (some mintA) = .authenticated mintA.userId := by
  have h1 : token_refresh_view st (some r) mintA mintR =
      (.success mintA mintR,
        { st with jwtBlacklist := fun j => j == r.jti || st.jwtBlacklist j }) := by
    simp [token_refresh_view, hsig, hexp, hjb, hdb]
  rw [h1]
  refine ⟨rfl, ?_, ?_, ?_⟩
  · simp [token_refresh_view, hsig, hexp]
  · simp [token_refresh_view, hmsig, hmexp, hmjti, hmjb, hmdb]
  · simp [jwt_auth_with_blacklist, token_blacklist_exists, hasig, haexp, hacache]

/-- Claim C6 (amended, witness): the amended statement at concrete tokens and
empty revocation stores. -/
theorem C6_rotation_rejects_reuse_witness :
    (token_refresh_view ⟨fun _ => false, [], fun _ => false⟩
      (some ⟨"tok-r0", "jti-r0", "user-1", true, false⟩)
      ⟨"tok-a1", "jti-a1", "user-1", true, false⟩
      ⟨"tok-r1", "jti-r1", "user-1", true, false⟩).1 =
      .success ⟨"tok-a1", "jti-a1", "user-1", true, false⟩
        ⟨"tok-r1", "jti-r1", "user-1", true, false⟩ ∧
    (token_refresh_view
      ((token_refresh_view ⟨fun _ => false, [], fun _ => false⟩
        (some ⟨"tok-r0", "jti-r0", "user-1", true, false⟩)
        ⟨"tok-a1", "jti-a1", "user-1", true, false⟩
        ⟨"tok-r1", "jti-r1", "user-1", true, false⟩).2)
      (some ⟨"tok-r0", "jti-r0", "user-1", true, false⟩)
      ⟨"tok-a2", "jti-a2", "user-1", true, false⟩
      ⟨"tok-r2", "jti-r2", "user-1", true, false⟩).1 =
      .failure ⟨500, "INTERNAL_ERROR"⟩ ∧
    (token_refresh_view
      ((token_refresh_view ⟨fun _ => false, [], fun _ => false⟩
        (some ⟨"tok-r0", "jti-r0", "user-1", true, false⟩)
        ⟨"tok-a1", "jti-a1", "user-1", true, false⟩
        ⟨"tok-r1", "jti-r1", "user-1", true, false⟩).2)
      (some ⟨"tok-r1", "jti-r1", "user-1", true, false⟩)
      ⟨"tok-a2", "jti-a2", "user-1", true, false⟩
      ⟨"tok-r2", "jti-r2", "user-1", true, false⟩).1 =
      .success ⟨"tok-a2", "jti-a2", "user-1", true, false⟩
        ⟨"tok-r2", "jti-r2", "user-1", true, false⟩ ∧
    jwt_auth_with_blacklist
      ((token_refresh_view ⟨fun _ => false, [], fun _ => false⟩
        (some ⟨"tok-r0", "jti-r0", "user-1", true, false⟩)
        ⟨"tok-a1", "jti-a1", "user-1", true, false⟩
        ⟨"tok-r1", "jti-r1", "user-1", true, false⟩).2)
      (some ⟨"tok-a1", "jti-a1", "user-1", true, false⟩) =
      .authenticated "user-1" :=
  C6_rotation_rejects_reuse ⟨fun _ => false, [], fun _ => false⟩
    ⟨"tok-r0", "jti-r0", "user-1", true, false⟩
    ⟨"tok-a1", "jti-a1", "user-1", true, false⟩
    ⟨"tok-r1", "jti-r1", "user-1", true, false⟩
    ⟨"tok-a2", "jti-a2", "user-1", true, false⟩
    ⟨"tok-r2", "jti-r2", "user-1", true, false⟩
    rfl rfl rfl (by decide) rfl rfl (by decide) rfl (by decide) rfl rfl rfl

end MyPharma
